import Mathlib

/-!
Shallow embedding of the LZSS compressor in `std/compress/lzss/compress.go`
(function `Compress` and its helpers `longestMostRecentBackRef`, `emit`,
and the closures `emitBackRef` / `getRunLength`), together with the decoder
state machine that the specification describes (the decoder itself is not
among the repository's files, so it is modelled from the spec).

Bytes are represented as `Nat` values (Go bytes are values in 0..255; the
places where Go truncates to a byte take the value mod 256 explicitly, via
`Int.emod` for the signed-int-to-byte conversion in `emit`).  The input
`d : []byte` is modelled as a `ByteSlice`: a length plus an index
function, mirroring a Go slice's constant-time indexing; every index the
compressor reads is guarded by the same bounds checks the Go code
performs, so the function is only ever applied in range.  Go runtime
panics (nil-map assignment, slice-bounds violations, and `emit`'s own
`panic`) are made explicit as a `GoPanic` outcome.  Loops whose
termination is not structural are given explicit fuel; `none` means the
fuel ran out, which on a terminating execution never happens for the fuel
the theorems supply.
-/

set_option maxRecDepth 10000

namespace LZSS

/-- A Go byte slice: its length and its byte at each index (only read at
indices below `len` by the code modelled here). -/
structure ByteSlice where
  len : Nat
  get : Nat → Nat

/-- Reference mode of the settings: only `self` is supported
("compressed ref not implemented").  Modelled from the spec:
`ReferenceMode ∈ {SelfStream, CompressedStream}`; the `Settings` type
itself is not among the repository's source files, only its use in
`compress.go`. -/
inductive ReferenceMode
  | self
  | compressed
  deriving DecidableEq

/-- Addressing mode of the settings: only `relative` is supported.
Modelled from the spec: `AddressingMode ∈ {Relative, Absolute}`. -/
inductive AddressingMode
  | relative
  | absolute
  deriving DecidableEq

/-- Modelled from the spec: the settings record of §3, with exactly the
fields `Compress` reads.  In the Go source `NbBytesAddress` and
`NbBytesLength` are fields of the embedded `BackRefSettings` (so
`settings.NbBytesAddress` and `settings.BackRefSettings.NbBytesAddress`,
both of which appear in `Compress`, name the same value by Go field
promotion). -/
structure Settings where
  symbol : Nat
  nbBytesAddress : Nat
  nbBytesLength : Nat
  referenceTo : ReferenceMode
  addressingMode : AddressingMode
  log : Bool
  deriving DecidableEq

/-- The Go runtime panics `Compress` can hit: writing to the nil map
`remainingOptions` (compress.go lines 153/159), a slice with negative or
out-of-range bounds (`d[i : i+minViableBackRefLen]`, line 152), and the
explicit `panic("n does not fit in nbBytes")` in `emit` (line 194). -/
inductive GoPanic
  | sliceBounds
  | nilMapWrite
  | emitOverflow
  deriving DecidableEq

/-- The `error` values `Compress` returns (compress.go lines 25, 28, 31,
96, 102). -/
inductive CompressError
  | compressedRefNotImplemented
  | absoluteNotImplemented
  | loggingNotImplemented
  | noBackRefFound
  | notYetImplemented
  deriving DecidableEq

/-- Result of a run of `Compress`: a compressed byte sequence, a returned
Go `error`, or a runtime panic. -/
inductive Outcome
  | ok (c : List Nat)
  | err (e : CompressError)
  | panic (p : GoPanic)
  deriving DecidableEq

/-- The byte-writing loop of `emit` (compress.go lines 189-192): `nbBytes`
iterations of `bb.WriteByte(byte(n)); n >>= 8`.  Go's conversion of a
(possibly negative) `int` to a byte keeps the low 8 bits, i.e. `n mod 256`
in `[0, 256)` (`Int.emod`), and `>> 8` on an `int` is an arithmetic shift,
i.e. floor division by 256 (`Int.fdiv`).  Returns the remaining `n` and
the bytes written. -/
def emitAux : Nat → Int → List Nat → Int × List Nat
  | 0, n, acc => (n, acc)
  | nb + 1, n, acc => emitAux nb (Int.fdiv n 256) (acc ++ [(Int.emod n 256).toNat])

/-- `emit` (compress.go lines 188-196): writes `n` little-endian in
`nbBytes` bytes; if a nonzero residue remains it panics
("n does not fit in nbBytes"). -/
def emit (n : Int) (nbBytes : Nat) : Except GoPanic (List Nat) :=
  let r := emitAux nbBytes n []
  if r.1 ≠ 0 then .error .emitOverflow else .ok r.2

/-- The `emitBackRef` closure (compress.go lines 40-43): writes the
offset field as `offset-1` in `NbBytesAddress` bytes, then the length
field as `length-1` in `NbBytesLength` bytes.  Note that it writes no
marker (`Symbol`) byte. -/
def emitBackRef (s : Settings) (offset length : Int) : Except GoPanic (List Nat) := do
  let a ← emit (offset - 1) s.nbBytesAddress
  let b ← emit (length - 1) s.nbBytesLength
  pure (a ++ b)

/-- Loop of the `getRunLength` closure (compress.go lines 51-54): advance
`j` while `j < len(d) && j < cap && d[j] == Symbol`.  Fuel
`d.len + 1` (supplied by `getRunLength`) always outlasts the loop, since
`j` starts above `i ≥ 0` and strictly increases while `< d.len`. -/
def getRunLengthAux (d : ByteSlice) (sym cap : Nat) : Nat → Nat → Nat
  | 0, j => j
  | fuel + 1, j =>
    if j < d.len ∧ j < cap ∧ d.get j = sym then
      getRunLengthAux d sym cap fuel (j + 1)
    else j

/-- The `getRunLength` closure (compress.go lines 47-56): length of the run
of `Symbol` bytes starting at `i`, bounded by `cap` (a `cap` of `-1` means
`len(d)`; the only call site passes `maxJExpressible`). -/
def getRunLength (d : ByteSlice) (sym : Nat) (i : Nat) (cap : Int) : Nat :=
  let capN : Nat := if cap = -1 then d.len else cap.toNat
  getRunLengthAux d sym capN (d.len + 1) (i + 1) - i

/-- `bytes.Equal(d[j : j+m], d[i : i+m])` (compress.go line 158): the two
`m`-byte slices agree byte for byte. -/
def sliceEq (d : ByteSlice) (j i m : Nat) : Bool :=
  (List.range m).all fun t => decide (d.get (j + t) = d.get (i + t))

/-- Whether the candidate-collection loop of `longestMostRecentBackRef`
(compress.go lines 154-161) finds at least one `j` in the window
`[max(0, minAddr), i)` with `j+m ≤ len(d)` and
`d[j : j+m] == d[i : i+m]`. -/
def hasMatchingCandidate (d : ByteSlice) (i : Nat) (minAddr : Int) (m : Nat) : Bool :=
  (List.range i).any fun j =>
    decide (minAddr ≤ (j : Int)) && decide (j + m ≤ d.len) && sliceEq d j i m

/-- `longestMostRecentBackRef` (compress.go lines 149-185).  Its local
`remainingOptions` is declared `var remainingOptions map[int]struct{}` and
never allocated, so it is the nil map: the first insertion
`remainingOptions[j] = struct{}{}` (line 159) is a runtime panic.  Hence
the function panics as soon as any window position matches the
`minViableBackRefLen`-byte prefix; when none does, the map stays empty,
the pruning loop body never runs (`len(toDelete) < len(remainingOptions)`
is `0 < 0`), and the function returns `(-1, -1)` (lines 175-177).  Before
any of that, the slice `d[i : i+minViableBackRefLen]` (line 152) panics
when `minViableBackRefLen` is negative (the caller passes `-1` when no
viable length was found) or reaches past the end of `d`. -/
def longestMostRecentBackRef (d : ByteSlice) (i : Nat) (minBackRefAddr : Int)
    (minViableBackRefLen : Int) : Except GoPanic (Int × Int) :=
  if minViableBackRefLen < 0 ∨ (i : Int) + minViableBackRefLen > d.len then
    .error .sliceBounds
  else if hasMatchingCandidate d i minBackRefAddr minViableBackRefLen.toNat then
    .error .nilMapWrite
  else
    .ok (-1, -1)

/-- The backward scan of the marker-run search (compress.go lines 77-94):
walk `k` from `i-1` down to `0`, tracking the current run of `Symbol`
bytes (`crl`), the longest run seen (`lrl`) and its start index (`lrsi`);
break as soon as a run of length `runLength` is found.  Returns
`(lrl, lrsi, crl)` with `crl` the value the loop variable holds when the
scan stops (it is what the `currentRunLength == 0` test, line 95, reads). -/
def markerScanAux (d : ByteSlice) (sym runLength : Nat) :
    Nat → Nat → Nat → Nat → Nat × Nat × Nat
  | 0, crl, lrl, lrsi =>
    let c := if d.get 0 = sym then crl + 1 else 0
    if c > lrl then (c, 0, c) else (lrl, lrsi, c)
  | k + 1, crl, lrl, lrsi =>
    let c := if d.get (k + 1) = sym then crl + 1 else 0
    if c > lrl then
      if c = runLength then (c, k + 1, c)
      else markerScanAux d sym runLength k c c (k + 1)
    else markerScanAux d sym runLength k c lrl lrsi

/-- The marker-run scan starting at `k = i - 1` with all counters zero. -/
def markerScan (d : ByteSlice) (sym runLength i : Nat) : Nat × Nat × Nat :=
  markerScanAux d sym runLength (i - 1) 0 0 0

/-- The `for runLength > 0` loop of the marker-run search branch
(compress.go lines 76-99) together with the `return nil, errors.New("not
yet implemented")` that follows it (line 102).  The loop body never
modifies `runLength`: each iteration rescans `d` below `i`, returns the
"no backref found" error when the scan's final `currentRunLength` is `0`,
and otherwise emits a back-reference and iterates again with the very same
state, so on that path the loop never exits (hence the fuel). -/
def markerLoop (d : ByteSlice) (s : Settings) (i : Nat) :
    Nat → Nat → List Nat → Option Outcome
  | 0, _, _ => none
  | fuel + 1, runLength, acc =>
    if runLength = 0 then some (.err .notYetImplemented)
    else
      let r := markerScan d s.symbol runLength i
      if r.2.2 = 0 then some (.err .noBackRefFound)
      else
        match emitBackRef s ((i : Int) - r.2.1) r.1 with
        | .error p => some (.panic p)
        | .ok bs => markerLoop d s i fuel runLength (acc ++ bs)

/-- The `minViableBackRefLength` computation (compress.go lines 107-133):
starting from length 2 and literal cost `cost(d[i])`, grow the candidate
length, skipping `Symbol` bytes (`midRle`), adding a `+length` correction
when a marker run was just crossed, and adding each non-`Symbol` byte's
cost; stop with the current length once the accumulated cost reaches the
threshold `minNontrivialBackRefCost`, or with `-1` ("just not viable")
once `i + length` passes the end of the input.  The costs are Go `int`s,
hence `Int` here (for byte widths summing below 2 the threshold is even
negative, by Go's unsigned wrap-around in
`int(NbBytesAddress+NbBytesLength-2)`). -/
def minViableAux (d : ByteSlice) (cost : Nat → Nat) (sym : Nat) (threshold : Int)
    (i : Nat) : Nat → Nat → Int → Bool → Int
  | 0, mv, _, _ => mv
  | fuel + 1, mv, noCost, midRle =>
    if i + mv > d.len then -1
    else
      let curr := d.get (i + mv - 1)
      if curr = sym then
        minViableAux d cost sym threshold i fuel (mv + 1) noCost true
      else
        let n1 := if midRle then noCost + mv else noCost
        let n2 := n1 + cost curr
        if n2 ≥ threshold then mv
        else minViableAux d cost sym threshold i fuel (mv + 1) n2 false

/-- Entry point of the viable-length loop, with the initial state of
compress.go lines 107-109 and fuel `d.len + 2`, which outlasts the loop
(the length strictly increases and the loop stops as soon as
`i + length > len(d)`). -/
def minViable (d : ByteSlice) (cost : Nat → Nat) (sym : Nat) (threshold : Int)
    (i : Nat) : Int :=
  minViableAux d cost sym threshold i (d.len + 2) 2 (cost (d.get i)) false

/-- The `minNontrivialBackRefCost` threshold (compress.go line 36):
`int(ByteGasCost(Symbol)) + 8 + int(NbBytesAddress+NbBytesLength-2)`,
with the inner subtraction performed on Go unsigned integers and the
wrapped value reinterpreted as a signed `int`, which over the byte widths
amounts to the integer value `nbA + nbL - 2` in `ℤ`. -/
def minNontrivialBackRefCost (cost : Nat → Nat) (s : Settings) : Int :=
  (cost s.symbol : Int) + 8 + ((s.nbBytesAddress : Int) + s.nbBytesLength - 2)

/-- The main loop of `Compress` (compress.go lines 58-144), one fuel unit
per iteration.  At a `Symbol` byte: bootstrap back-reference at `i = 0`
(line 67), near-origin fields `emit(i)`/`emit(runLength-1)` for
`i ≤ backRefAddressRange` (lines 71-72), and otherwise the marker-run
search loop.  At a non-`Symbol` byte: compute the minimum viable length,
call the matcher, and either emit the back-reference fields
`emitBackRef(i-addr-1, length-1)` and advance by `length` (lines 136-137)
or write the literal byte and advance by one (lines 140-141). -/
def compressLoop (cost : Nat → Nat) (d : ByteSlice) (s : Settings) :
    Nat → Nat → List Nat → Option Outcome
  | 0, _, _ => none
  | fuel + 1, i, acc =>
    if i ≥ d.len then some (.ok acc)
    else
      let backRefAddressRange : Nat := 2 ^ (s.nbBytesAddress * 8)
      let backRefLengthRange : Nat := 2 ^ (s.nbBytesLength * 8)
      if d.get i = s.symbol then
        let runLength := getRunLength d s.symbol i ((i : Int) + 1 + backRefLengthRange)
        if i = 0 then
          match emitBackRef s 1 runLength with
          | .error p => some (.panic p)
          | .ok bs => compressLoop cost d s fuel (i + runLength) (acc ++ bs)
        else if i ≤ backRefAddressRange then
          match emit i s.nbBytesAddress with
          | .error p => some (.panic p)
          | .ok bs1 =>
            match emit ((runLength : Int) - 1) s.nbBytesLength with
            | .error p => some (.panic p)
            | .ok bs2 => compressLoop cost d s fuel (i + runLength) (acc ++ bs1 ++ bs2)
        else
          markerLoop d s i fuel runLength acc
      else
        let mv := minViable d cost s.symbol (minNontrivialBackRefCost cost s) i
        match longestMostRecentBackRef d i ((i : Int) - backRefAddressRange - 1) mv with
        | .error p => some (.panic p)
        | .ok al =>
          if al.2 ≠ -1 then
            match emitBackRef s ((i : Int) - al.1 - 1) (al.2 - 1) with
            | .error p => some (.panic p)
            | .ok bs => compressLoop cost d s fuel ((i + al.2).toNat) (acc ++ bs)
          else
            compressLoop cost d s fuel (i + 1) (acc ++ [d.get i])

/-- `Compress` (compress.go lines 20-147): reject the unsupported settings
(lines 24-32) before touching the input, then run the main loop.  The cost
oracle (`compress.ByteGasCost`, an external collaborator per the spec) is
an injected parameter. -/
def compress (cost : Nat → Nat) (s : Settings) (d : ByteSlice) (fuel : Nat) :
    Option Outcome :=
  if s.referenceTo = .compressed then some (.err .compressedRefNotImplemented)
  else if s.addressingMode = .absolute then some (.err .absoluteNotImplemented)
  else if s.log = true then some (.err .loggingNotImplemented)
  else compressLoop cost d s fuel 0 []

/-- Little-endian bytes of `n` in `nb` bytes (no overflow check):
used to state what the spec's wire format prescribes. -/
def leBytes (n : Nat) : Nat → List Nat
  | 0 => []
  | nb + 1 => n % 256 :: leBytes (n / 256) nb

/-- Modelled from the spec: the wire format of §6 — "A backreference token
is: one byte equal to `Symbol`, followed by `NbBytesAddress` little-endian
bytes encoding `offset − 1`, followed by `NbBytesLength` little-endian
bytes encoding `length − 1`."  (The decoder and this token shape are
specified but not among the repository's source files.) -/
def specBackRefToken (sym nbA nbL offset length : Nat) : List Nat :=
  sym :: (leBytes (offset - 1) nbA ++ leBytes (length - 1) nbL)

/-- Decoding failures of the spec's decoder (§4.5): truncation inside a
back-reference token, or a copy source before the start of the output. -/
inductive DecodeError
  | truncated
  | outOfRange
  deriving DecidableEq

/-- Little-endian value of a byte list. -/
def leNat : List Nat → Nat
  | [] => 0
  | b :: rest => b + 256 * leNat rest

/-- The sublist `c[j : j+m]` of a byte list. -/
def extract (c : List Nat) (j m : Nat) : List Nat :=
  (c.drop j).take m

/-- Modelled from the spec: the byte-at-a-time overlapping copy of §4.5 —
copy `n` bytes, each sourced from output position
`currentOutputLength − offset` at the time of that byte's write; `none`
when a source position would be negative. -/
def refCopy (offset : Nat) : Nat → List Nat → Option (List Nat)
  | 0, out => some out
  | n + 1, out =>
    if out.length < offset then none
    else refCopy offset n (out ++ [out.getD (out.length - offset) 0])

/-- Modelled from the spec: one state-machine step per token of the §4.5
decoder.  A non-`Symbol` byte is appended to the output; a `Symbol` byte
announces `nbA` little-endian bytes of `rawOffset` and `nbL` of
`rawLength` (truncation error if fewer remain), and
`offset = rawOffset + 1`, `length = rawLength + 1` bytes are copied with
the overlapping copy.  Every step consumes at least one input byte, so
fuel `length of the input + 1` (supplied by `decode`) never runs out. -/
def decodeAux (sym nbA nbL : Nat) :
    Nat → List Nat → List Nat → Except DecodeError (List Nat)
  | 0, _, out => .ok out
  | fuel + 1, c, out =>
    match c with
    | [] => .ok out
    | b :: rest =>
      if b ≠ sym then decodeAux sym nbA nbL fuel rest (out ++ [b])
      else if rest.length < nbA + nbL then .error .truncated
      else
        let rawOffset := leNat (extract rest 0 nbA)
        let rawLength := leNat (extract rest nbA nbL)
        match refCopy (rawOffset + 1) (rawLength + 1) out with
        | none => .error .outOfRange
        | some out2 => decodeAux sym nbA nbL fuel (rest.drop (nbA + nbL)) out2

/-- Modelled from the spec: the decoder state machine of §4.5 run on a
whole compressed stream. -/
def decode (sym nbA nbL : Nat) (c : List Nat) : Except DecodeError (List Nat) :=
  decodeAux sym nbA nbL (c.length + 1) c []

/-- All-literals-free cost oracle (cost 0 for every byte value). -/
def cost0 : Nat → Nat := fun _ => 0

/-- A cost oracle that charges 100 for every byte value. -/
def cost100 : Nat → Nat := fun _ => 100

/-- Supported settings with marker byte 2 and one-byte address and length
fields. -/
def s2 : Settings :=
  { symbol := 2, nbBytesAddress := 1, nbBytesLength := 1,
    referenceTo := .self, addressingMode := .relative, log := false }

/-- Supported settings with marker byte 0 and one-byte address and length
fields. -/
def s0sym : Settings :=
  { symbol := 0, nbBytesAddress := 1, nbBytesLength := 1,
    referenceTo := .self, addressingMode := .relative, log := false }

/-- Supported settings with marker byte 255 and one-byte address and
length fields. -/
def s255 : Settings :=
  { symbol := 255, nbBytesAddress := 1, nbBytesLength := 1,
    referenceTo := .self, addressingMode := .relative, log := false }

/-- Settings with the unsupported `ReferenceMode = CompressedStream`. -/
def sCompressedRef : Settings :=
  { symbol := 2, nbBytesAddress := 1, nbBytesLength := 1,
    referenceTo := .compressed, addressingMode := .relative, log := false }

/-- Settings with the unsupported `AddressingMode = Absolute`. -/
def sAbsolute : Settings :=
  { symbol := 2, nbBytesAddress := 1, nbBytesLength := 1,
    referenceTo := .self, addressingMode := .absolute, log := false }

/-- Settings with the unsupported diagnostic logging enabled. -/
def sLogging : Settings :=
  { symbol := 2, nbBytesAddress := 1, nbBytesLength := 1,
    referenceTo := .self, addressingMode := .relative, log := true }

/-- The one-byte input `[2]`: a single marker byte under `s2`. -/
def dSym1 : ByteSlice := ⟨1, fun _ => 2⟩

/-- The one-byte input `[0]`: a single marker byte under `s0sym`. -/
def dZero1 : ByteSlice := ⟨1, fun _ => 0⟩

/-- The three-byte input `[2, 2, 2]`: three marker bytes under `s2`. -/
def dSym3 : ByteSlice := ⟨3, fun _ => 2⟩

/-- The one-byte input `[1]`: symbol-free under `s2`. -/
def dOne : ByteSlice := ⟨1, fun _ => 1⟩

/-- The two-byte input `[3, 4]`: symbol-free under `s2`. -/
def dLit2 : ByteSlice := ⟨2, fun k => if k = 0 then 3 else 4⟩

/-- The four-byte input `[5, 6, 5, 6]`, whose two-byte prefix at position
2 recurs at position 0. -/
def dPair : ByteSlice := ⟨4, fun k => if k % 2 = 0 then 5 else 6⟩

/-- Input that drives `Compress` into the marker-run search loop: 256
marker bytes, a literal, one more marker byte at position 257 (past the
addressable range 256), and a trailing literal. -/
def d6 : ByteSlice :=
  ⟨259, fun k => if k < 256 then 255 else if k = 256 then 1 else
    if k = 257 then 255 else 2⟩

/-- On `d6` the marker-run search loop never exits: `runLength` is `1` and
never changes, each iteration's scan finds the one-byte run at index 255
(`markerScan d6 255 1 257 = (1, 255, 1)`), emits the two field bytes
`[1, 0]` and iterates with identical state, so every amount of fuel runs
out. -/
theorem markerLoop_d6_stuck :
    ∀ (f : Nat) (acc : List Nat), markerLoop d6 s255 257 f 1 acc = none := by
  intro f
  induction f with
  | zero => intro acc; rfl
  | succ f ih =>
    intro acc
    have h : markerLoop d6 s255 257 (f + 1) 1 acc =
        markerLoop d6 s255 257 f 1 (acc ++ [1, 0]) := rfl
    rw [h]
    exact ih _

/-- C1: the round-trip property fails on the code.  On input `[2]` with
`Symbol = 2` (one-byte address and length fields), `Compress` succeeds and
returns `[0, 0]` — the bootstrap back-reference's two field bytes, with no
marker byte in front — and the spec's §4.5 decoder reads `[0, 0]` as two
literal bytes, yielding `[0, 0]`, not the original input `[2]`. -/
theorem compress_symbol_input_breaks_roundtrip :
    compress cost100 s2 dSym1 10 = some (.ok [0, 0]) ∧
      decode 2 1 1 [0, 0] = .ok [0, 0] ∧ ([0, 0] : List Nat) ≠ [dSym1.get 0] :=
  ⟨rfl, rfl, by decide⟩

/-- C2: the no-bare-marker invariant fails on the code.  With `Symbol = 0`,
input `[0]` compresses successfully to `[0, 0]`: the first output byte
equals `Symbol` yet begins no complete back-reference token, so re-walking
the output with the decoder's token grammar fails with a truncation error
instead of ending cleanly at the output's last byte. -/
theorem compress_output_has_bare_marker :
    compress cost100 s0sym dZero1 10 = some (.ok [0, 0]) ∧
      decode 0 1 1 [0, 0] = .error .truncated :=
  ⟨rfl, rfl⟩

/-- C3: the back-reference wire format claim fails on the code.  The whole
output of `Compress` on `[2]` (with `Symbol = 2`) is the single bootstrap
back-reference with `offset = 1`, `length = 1`, written by `emitBackRef`
as the bare field bytes `[0, 0]`; the spec's token for it would be
`[2, 0, 0]`, with the marker byte in front, which `Compress` never
writes. -/
theorem compress_backref_lacks_marker_byte :
    emitBackRef s2 1 1 = .ok [0, 0] ∧
      compress cost100 s2 dSym1 10 = some (.ok [0, 0]) ∧
      specBackRefToken 2 1 1 1 1 = [2, 0, 0] ∧ ([0, 0] : List Nat) ≠ [2, 0, 0] :=
  ⟨rfl, rfl, rfl, by decide⟩

/-- C4: the matcher cannot return a match.  On `d = [5, 6, 5, 6]`,
position `i = 2`, minimum length `2`, window floor `-255`, the prefix
`[5, 6]` recurs at position `0`, so the claim says `(addr, length) =
(0, 2)` is returned; instead the first insertion into the never-allocated
`remainingOptions` map is a nil-map-write runtime panic. -/
theorem longestMostRecentBackRef_panics_on_match :
    longestMostRecentBackRef dPair 2 (-255) 2 = .error .nilMapWrite :=
  rfl

/-- C5: the general-case emission writes `D − 2` and `L − 2`, not `D − 1`
and `L − 1`.  For a matcher result `addr = 0`, `length = 2` at position
`i = 3` (distance `D = 3`, length `L = 2`), line 136 calls
`emitBackRef(i-addr-1, length-1) = emitBackRef(2, 1)`, and `emitBackRef`
subtracts 1 again from each, producing the field bytes `[1, 0]`
(little-endian `D − 2` and `L − 2`) where the claim prescribes `[2, 1]`
(little-endian `D − 1` and `L − 1`). -/
theorem general_backref_fields_double_decremented :
    emitBackRef s2 ((3 : Int) - 0 - 1) ((2 : Int) - 1) = .ok [1, 0] ∧
      leBytes (3 - 1) 1 ++ leBytes (2 - 1) 1 = [2, 1] ∧
      ([1, 0] : List Nat) ≠ [2, 1] :=
  ⟨rfl, rfl, by decide⟩

/-- First iteration of the run on `d6`: the 256-byte bootstrap marker run
at position 0 is emitted as the field bytes `[0, 255]` (offset 1, length
256) and the loop advances to position 256. -/
theorem compressLoop_d6_step0 (f : Nat) (acc : List Nat) :
    compressLoop cost100 d6 s255 (f + 1) 0 acc =
      compressLoop cost100 d6 s255 f 256 (acc ++ [0, 255]) := rfl

/-- Second iteration of the run on `d6`: the literal `1` at position 256
(no matching candidate in the window, so the matcher returns `(-1, -1)`
without touching the nil map) and the loop advances to position 257. -/
theorem compressLoop_d6_step256 (f : Nat) (acc : List Nat) :
    compressLoop cost100 d6 s255 (f + 1) 256 acc =
      compressLoop cost100 d6 s255 f 257 (acc ++ [1]) := rfl

/-- Third iteration of the run on `d6`: position 257 holds the marker
byte, `257 > 256` exceeds the addressable range, and the run of length 1
enters the marker-run search loop. -/
theorem compressLoop_d6_step257 (f : Nat) (acc : List Nat) :
    compressLoop cost100 d6 s255 (f + 1) 257 acc =
      markerLoop d6 s255 257 f 1 acc := rfl

/-- The settings `s255` pass the support checks, so `Compress` on `d6` is
its main loop from position 0. -/
theorem compress_d6_unfold (fuel : Nat) :
    compress cost100 s255 d6 fuel = compressLoop cost100 d6 s255 fuel 0 [] := rfl

/-- C6: `Compress` does not terminate on every input.  On `d6` (with
`Symbol = 255`, one-byte fields, a constant cost oracle) the run reaches
the marker byte at position 257, beyond the addressable range, and enters
the marker-run search loop, which re-emits the same back-reference
forever: the fueled model returns `none` for every amount of fuel. -/
theorem compress_marker_run_loop_diverges :
    ∀ fuel : Nat, compress cost100 s255 d6 fuel = none
  | 0 => rfl
  | 1 => by
    rw [compress_d6_unfold, compressLoop_d6_step0]
    rfl
  | 2 => by
    rw [compress_d6_unfold, compressLoop_d6_step0, compressLoop_d6_step256]
    rfl
  | f + 3 => by
    rw [compress_d6_unfold, compressLoop_d6_step0, compressLoop_d6_step256,
      compressLoop_d6_step257]
    exact markerLoop_d6_stuck f _

/-- C7: with an all-zero cost oracle `Compress` panics instead of emitting
literals.  On the symbol-free input `[1]` (with `Symbol = 2`) the literal
cost never reaches the strictly positive back-reference threshold, the
viable-length loop returns `-1` ("just not viable"), and that `-1` is
passed to `longestMostRecentBackRef`, whose slice `d[0 : 0 + (-1)]` is a
slice-bounds runtime panic — the claimed output `[1]` is never
produced. -/
theorem compress_free_literal_cost_panics :
    compress cost0 s2 dOne 10 = some (.panic .sliceBounds) :=
  rfl

/-- C8: bootstrap emission happens but its token does not decode back.
For `k = 3` repetitions of `Symbol = 2`, `Compress` emits the single
bootstrap back-reference with `offset = 1`, `length = 3` as the bare field
bytes `[0, 2]` (no marker byte); the spec's §4.5 decoder reads the `0` as
a literal and the `2` as a marker with nothing after it, failing with a
truncation error instead of decoding to `[2, 2, 2]`. -/
theorem compress_marker_run_bootstrap_fails_decode :
    compress cost100 s2 dSym3 10 = some (.ok [0, 2]) ∧
      decode 2 1 1 [0, 2] = .error .truncated :=
  ⟨rfl, rfl⟩

/-- C9: unsupported settings are rejected up front.  For every cost
oracle, input and fuel: `ReferenceMode = CompressedStream` yields the
"compressed ref not implemented" error, otherwise `AddressingMode =
Absolute` yields the "absolute addressing not implemented" error,
otherwise `DiagnosticLogging` yields the "logging not implemented" error —
each before any input byte is processed (the result does not depend on the
input), with no output, and the three errors are pairwise distinct. -/
theorem compress_rejects_unsupported_settings :
    ∀ (cost : Nat → Nat) (s : Settings) (d : ByteSlice) (fuel : Nat),
      (s.referenceTo = .compressed →
        compress cost s d fuel = some (.err .compressedRefNotImplemented)) ∧
      (s.referenceTo = .self → s.addressingMode = .absolute →
        compress cost s d fuel = some (.err .absoluteNotImplemented)) ∧
      (s.referenceTo = .self → s.addressingMode = .relative → s.log = true →
        compress cost s d fuel = some (.err .loggingNotImplemented)) ∧
      CompressError.compressedRefNotImplemented ≠ .absoluteNotImplemented ∧
      CompressError.compressedRefNotImplemented ≠ .loggingNotImplemented ∧
      CompressError.absoluteNotImplemented ≠ .loggingNotImplemented := by
  intro cost s d fuel
  refine ⟨fun h1 => ?_, fun h1 h2 => ?_, fun h1 h2 h3 => ?_,
    by decide, by decide, by decide⟩
  · simp [compress, h1]
  · simp [compress, h1, h2]
  · simp [compress, h1, h2, h3]

/-- C9 witness: each of the three rejections observed at a concrete
settings value, input and fuel. -/
theorem compress_rejects_unsupported_settings_witness :
    compress cost0 sCompressedRef dOne 5 =
        some (.err .compressedRefNotImplemented) ∧
      compress cost0 sAbsolute dOne 5 = some (.err .absoluteNotImplemented) ∧
      compress cost0 sLogging dOne 5 = some (.err .loggingNotImplemented) :=
  ⟨(compress_rejects_unsupported_settings cost0 sCompressedRef dOne 5).1 rfl,
   (compress_rejects_unsupported_settings cost0 sAbsolute dOne 5).2.1 rfl rfl,
   (compress_rejects_unsupported_settings cost0 sLogging dOne 5).2.2.1 rfl rfl rfl⟩

/-- C10: `Compress` is not panic-free at the public interface.  The
two-byte symbol-free input `[3, 4]` under supported settings: position 0
is emitted as a literal, and at position 1 the viable-length loop runs off
the end of the input and returns `-1`, so the matcher's candidate slice
`d[1 : 1 + (-1)]` is a slice-bounds runtime panic. -/
theorem compress_panics_on_two_literals :
    compress cost100 s2 dLit2 10 = some (.panic .sliceBounds) :=
  rfl

end LZSS
